import Mathlib

/-!
Shallow embedding of the request-dispatch core of supertokens-golang:
the `middleware` routing algorithm, the `errorHandler` chain,
`getAllCORSHeaders`, `supertokensInit` / `getInstanceOrThrowError`
(all from supertokens/supertokens.go), and `HandleRefreshAPI`
(recipe/session/refresh.go).

Stateful HTTP effects are modelled by explicit event traces: each run of a
handler produces the ordered list of observable actions it performs
(querying a recipe module, invoking a handler, writing a response,
invoking the fallback or the error chain). Helper functions of the
repository that are not part of the dispatch core (URL-path normalisation,
path concatenation, the response writers) are abstracted as parameters of
the model, so every theorem quantifies over all of their possible
behaviours.
-/

namespace SuperTokensGo

/-- The error taxonomy as the code observes it: `errorHandler` inspects an
error only through `errors.As(err, &BadInputError{})`, so errors are a
tagged union of `BadInputError` and everything else. -/
inductive Err where
  | badInput (msg : String)
  | general (msg : String)
deriving DecidableEq, Repr

/-- `err.Error()` in Go: the message carried by the error. -/
def Err.message : Err → String
  | .badInput m => m
  | .general m => m

/-- The `errors.As(err, &BadInputError{})` test of supertokens.go line 213. -/
def Err.isBadInput : Err → Bool
  | .badInput _ => true
  | .general _ => false

/-- One registered recipe module, carrying exactly the capabilities the
dispatch core consumes: `GetRecipeID`, `ReturnAPIIdIfCanHandleRequest`
(path, method ↦ optional API id or error), `HandleAPIRequest` (API id ↦
error or success), `GetAllCORSHeaders`, and the optional `HandleError`
hook returning `(handled, err)`. -/
structure RecipeModule where
  recipeID : String
  returnAPIIdIfCanHandleRequest : String → String → Except Err (Option String)
  handleAPIRequest : String → Except Err Unit
  getAllCORSHeaders : List String
  handleError : Option (Err → Bool × Option Err)

/-- Observable actions of one `middleware` run. `resolveQuery i` records a
call to module `i`'s `ReturnAPIIdIfCanHandleRequest`; `handleAPI i id`
records a call to module `i`'s `HandleAPIRequest` with API id `id`;
`errorChain e` records an invocation of `s.errorHandler` with `e`;
`fallback` records `theirHandler.ServeHTTP`; `nilDeref` records the
dereference of the nil normalised-path pointer that the code performs when
path normalisation failed (supertokens.go line 137), which aborts the
handler. -/
inductive MEvent where
  | resolveQuery (i : Nat)
  | handleAPI (i : Nat) (apiId : String)
  | errorChain (e : Err)
  | fallback
  | nilDeref
deriving DecidableEq, Repr

/-- The RID-absent scan of supertokens.go lines 175-191: modules are
queried in registration order (`i` is the index of the head of the
remaining list); the first non-none API id is dispatched; a resolution
error stops the scan; if no module claims the request the fallback runs. -/
def scanRecipes (path method : String) : Nat → List RecipeModule → List MEvent
  | _, [] => [.fallback]
  | i, m :: rest =>
    match m.returnAPIIdIfCanHandleRequest path method with
    | .error e => [.resolveQuery i, .errorChain e]
    | .ok none => .resolveQuery i :: scanRecipes path method (i + 1) rest
    | .ok (some id) =>
      match m.handleAPIRequest id with
      | .error e => [.resolveQuery i, .handleAPI i id, .errorChain e]
      | .ok _ => [.resolveQuery i, .handleAPI i id]

/-- The RID matching loop of supertokens.go lines 146-152: the first module
whose `GetRecipeID` equals the request RID is selected, with its index. -/
def findMatchedRecipe (rid : String) : Nat → List RecipeModule → Option (Nat × RecipeModule)
  | _, [] => none
  | i, m :: rest =>
    if m.recipeID = rid then some (i, m) else findMatchedRecipe rid (i + 1) rest

/-- The RID-present branch of supertokens.go lines 145-173: a missing match
falls back; otherwise only the matched module is queried, its resolution
error goes to the error chain, a none API id falls back, and otherwise
`HandleAPIRequest` runs on that module, its error going to the chain. -/
def ridBranch (path method : String) (mods : List RecipeModule) (rid : String) : List MEvent :=
  match findMatchedRecipe rid 0 mods with
  | none => [.fallback]
  | some (i, m) =>
    match m.returnAPIIdIfCanHandleRequest path method with
    | .error e => [.resolveQuery i, .errorChain e]
    | .ok none => [.resolveQuery i, .fallback]
    | .ok (some id) =>
      match m.handleAPIRequest id with
      | .error e => [.resolveQuery i, .handleAPI i id, .errorChain e]
      | .ok _ => [.resolveQuery i, .handleAPI i id]

/-- Character-list version of Go's `strings.HasPrefix` test: does the
second list start the first? -/
def charsHasPrefix : List Char → List Char → Bool
  | _, [] => true
  | [], _ :: _ => false
  | c :: cs, p :: ps => c = p && charsHasPrefix cs ps

/-- Go's `strings.HasPrefix s pre`: `pre` is a prefix of `s`. -/
def strHasPrefix (s pre : String) : Bool := charsHasPrefix s.data pre.data

/-- The Dispatcher state the middleware reads: the normalised app info's
gateway and base paths (as their canonical strings) and the ordered
registered modules. -/
structure SuperTokensInst where
  apiGatewayPath : String
  apiBasePath : String
  recipeModules : List RecipeModule

/-- The `middleware` handler of supertokens.go lines 131-194, as the event
trace of one request. `normalisePath` stands for `NewNormalisedURLPath`
and `appendPath` for `APIGatewayPath.AppendPath`; `rid` is the value of
`getRIDFromRequest` (the empty string when the header is absent). When
normalisation fails the code calls `s.errorHandler` WITHOUT returning and
then dereferences the nil `reqURL` pointer on line 137, so the trace is
the error-chain event followed by `nilDeref` and nothing else. -/
def middleware (s : SuperTokensInst)
    (normalisePath : String → Except Err String)
    (appendPath : String → String → String)
    (reqPath method rid : String) : List MEvent :=
  match normalisePath reqPath with
  | .error e => [.errorChain e, .nilDeref]
  | .ok reqURL =>
    let path := appendPath s.apiGatewayPath reqURL
    if ¬ strHasPrefix path s.apiBasePath then [.fallback]
    else if rid ≠ "" then ridBranch path method s.recipeModules rid
    else scanRecipes path method 0 s.recipeModules

/-- Observable actions of one `errorHandler` run. `attemptWrite400 msg`
records the `SendNon200Response(res, err.Error(), 400)` attempt;
`handleErrorCall i` records a call to module `i`'s `HandleError`;
`onGeneralError e` records an invocation of `s.OnGeneralError` with `e`. -/
inductive EEvent where
  | attemptWrite400 (msg : String)
  | handleErrorCall (i : Nat)
  | onGeneralError (e : Err)
deriving DecidableEq, Repr

/-- The recipe walk of supertokens.go lines 219-231: each module with a
`HandleError` hook is consulted in registration order; a non-nil second
component escalates that error to the general handler and stops; `handled
= true` stops; otherwise the walk continues, ending at the general handler
with the original error. -/
def handleErrorWalk (e : Err) : Nat → List RecipeModule → List EEvent
  | _, [] => [.onGeneralError e]
  | i, m :: rest =>
    match m.handleError with
    | none => handleErrorWalk e (i + 1) rest
    | some h =>
      match h e with
      | (_, some err2) => [.handleErrorCall i, .onGeneralError err2]
      | (true, none) => [.handleErrorCall i]
      | (false, none) => .handleErrorCall i :: handleErrorWalk e (i + 1) rest

/-- The `errorHandler` of supertokens.go lines 211-232 as an event trace.
A `BadInputError` is answered by a 400 write attempt carrying the error's
message; `writeFails` stands for `SendNon200Response` returning a non-nil
error, in which case the general handler receives the ORIGINAL error. All
other errors go through the recipe walk. -/
def errorHandler (mods : List RecipeModule) (writeFails : Bool) (e : Err) : List EEvent :=
  if e.isBadInput then
    if writeFails then [.attemptWrite400 e.message, .onGeneralError e]
    else [.attemptWrite400 e.message]
  else handleErrorWalk e 0 mods

/-- Modelled from the spec: the fixed RID protocol header advertised by
CORS aggregation (§6); its constant lives in a file outside src/, and no
claim depends on its value. -/
def HeaderRID : String := "rid"

/-- Modelled from the spec: the fixed frontend-driver-interface version
header advertised by CORS aggregation (§6); its constant lives in a file
outside src/, and no claim depends on its value. -/
def HeaderFDI : String := "fdi-version"

/-- `getAllCORSHeaders` of supertokens.go lines 196-209: a Go map keyed by
header name is seeded with `HeaderRID` and `HeaderFDI`, every module's
declared headers are inserted, and the key set is returned. The map's key
set is modelled as a `Finset String`. -/
def getAllCORSHeaders (mods : List RecipeModule) : Finset String :=
  mods.foldl (fun s m => s ∪ m.getAllCORSHeaders.toFinset) {HeaderRID, HeaderFDI}

/-- Observable actions of one `HandleRefreshAPI` run:
`otherHandlerServed` records `options.OtherHandler.ServeHTTP`;
`refreshPOSTInvoked` records the call of the `RefreshPOST` override with
the options and the per-request context; `send200EmptyJSON` records
`Send200Response(options.Res, nil)` (status 200, empty JSON body). -/
inductive RefreshEvent where
  | otherHandlerServed
  | refreshPOSTInvoked
  | send200EmptyJSON
deriving DecidableEq, Repr

/-- `HandleRefreshAPI` of recipe/session/refresh.go lines 23-33.
`refreshPOST` models the `*func` field `apiImplementation.RefreshPOST`
(nil pointer, pointer to nil function, or a real override taking the
per-request context `ctx`); `send200Result` models the error returned by
`Send200Response`. The result is the event trace paired with the error
the handler returns to the dispatcher. -/
def HandleRefreshAPI {Ctx : Type} (refreshPOST : Option (Option (Ctx → Except Err Unit)))
    (ctx : Ctx) (send200Result : Option Err) : List RefreshEvent × Option Err :=
  match refreshPOST with
  | none => ([.otherHandlerServed], none)
  | some none => ([.otherHandlerServed], none)
  | some (some f) =>
    match f ctx with
    | .error e => ([.refreshPOSTInvoked], some e)
    | .ok _ => ([.refreshPOSTInvoked, .send200EmptyJSON], send200Result)

/-- The normalised app info the singleton stores; only its presence matters
to the initialisation claims. -/
structure NormalisedAppinfo where
  appName : String
deriving DecidableEq, Repr

/-- The `superTokens` singleton payload: app info plus registered modules
(the general-error callback is behaviourally irrelevant here). -/
structure SuperTokensSingleton where
  appInfo : NormalisedAppinfo
  recipeModules : List RecipeModule

/-- Configuration input of `supertokensInit`: raw app info (fed to
`NormaliseInputAppInfoOrThrowError`), the optional SuperTokens connection
URI, the optional recipe factory list, and the telemetry flag. -/
structure TypeInput where
  appInfo : String
  supertokensURI : Option String
  recipeList : Option (List (NormalisedAppinfo → Except Err RecipeModule))
  telemetry : Option Bool

/-- The host loop of supertokens.go lines 39-45: each host string is
normalised, the first error aborting initialisation. -/
def normaliseHosts (newDomain : String → Except Err String) :
    List String → Except Err (List String)
  | [] => .ok []
  | h :: rest =>
    match newDomain h with
    | .error e => .error e
    | .ok d =>
      match normaliseHosts newDomain rest with
      | .error e => .error e
      | .ok ds => .ok (d :: ds)

/-- The recipe factory loop of supertokens.go lines 60-66: each factory is
given the shared app info, the first error aborting initialisation. -/
def initRecipes (appInfo : NormalisedAppinfo) :
    List (NormalisedAppinfo → Except Err RecipeModule) → Except Err (List RecipeModule)
  | [] => .ok []
  | f :: rest =>
    match f appInfo with
    | .error e => .error e
    | .ok m =>
      match initRecipes appInfo rest with
      | .error e => .error e
      | .ok ms => .ok (m :: ms)

/-- The error message of supertokens.go line 57. -/
def emptyRecipeListMsg : String :=
  "please provide at least one recipe to the supertokens.init function call"

/-- The error message of supertokens.go line 85. -/
def notInitialisedMsg : String :=
  "initialisation not done. Did you forget to call the SuperTokens.init function?"

/-- `supertokensInit` of supertokens.go lines 19-75, with the process-wide
`superTokensInstance` passed in and returned explicitly. A non-nil
existing instance makes the call a no-op; otherwise app info is
normalised, the connection-URI hosts are normalised (when configured), a
nil or empty recipe list is rejected, the recipe factories run in order,
and ONLY after every step has succeeded is the singleton assigned (line
73). `normaliseAppInfoFn` stands for `NormaliseInputAppInfoOrThrowError`
and `newDomainFn` for `NewNormalisedURLDomain`; `initQuerier` and
`sendTelemetry` have no effect on the singleton and are omitted. -/
def supertokensInit
    (normaliseAppInfoFn : String → Except Err NormalisedAppinfo)
    (newDomainFn : String → Except Err String)
    (inst : Option SuperTokensSingleton) (config : TypeInput) :
    Except Err Unit × Option SuperTokensSingleton :=
  match inst with
  | some s => (.ok (), some s)
  | none =>
    match normaliseAppInfoFn config.appInfo with
    | .error e => (.error e, none)
    | .ok appInfo =>
      match (match config.supertokensURI with
             | some uri => normaliseHosts newDomainFn (uri.splitOn ";")
             | none => .ok []) with
      | .error e => (.error e, none)
      | .ok _hosts =>
        match config.recipeList with
        | none => (.error (.general emptyRecipeListMsg), none)
        | some rl =>
          if rl.length = 0 then (.error (.general emptyRecipeListMsg), none)
          else
            match initRecipes appInfo rl with
            | .error e => (.error e, none)
            | .ok mods => (.ok (), some ⟨appInfo, mods⟩)

/-- `getInstanceOrThrowError` of supertokens.go lines 81-86. -/
def getInstanceOrThrowError :
    Option SuperTokensSingleton → Except Err SuperTokensSingleton
  | some s => .ok s
  | none => .error (.general notInitialisedMsg)

/-! ### Helper lemmas about the no-RID scan -/

/-- Modules that all resolve to `none` are skipped by the scan, each
contributing exactly its query event, and the scan proceeds on the rest
with the index advanced. -/
theorem scanRecipes_append (path method : String) (l1 rest : List RecipeModule) (b : Nat)
    (h : ∀ m ∈ l1, m.returnAPIIdIfCanHandleRequest path method = .ok none) :
    scanRecipes path method b (l1 ++ rest)
      = ((List.range' b l1.length).map MEvent.resolveQuery)
          ++ scanRecipes path method (b + l1.length) rest := by
  induction l1 generalizing b with
  | nil => simp
  | cons m l1 ih =>
    have hm : m.returnAPIIdIfCanHandleRequest path method = .ok none := h m (by simp)
    have hrest : ∀ m' ∈ l1, m'.returnAPIIdIfCanHandleRequest path method = .ok none :=
      fun m' hm' => h m' (List.mem_cons_of_mem m hm')
    have harr : b + (l1.length + 1) = b + 1 + l1.length := by omega
    simp only [List.cons_append, scanRecipes, hm, List.length_cons, List.range'_succ,
      List.map_cons, harr]
    rw [show l1.append rest = l1 ++ rest from rfl, ih (b + 1) hrest]

/-- Every event of the skipped-query block is a `resolveQuery` with index
below `b + n`. -/
theorem mem_resolveQuery_block {ev : MEvent} {b n : Nat}
    (h : ev ∈ (List.range' b n).map MEvent.resolveQuery) :
    ∃ k, ev = MEvent.resolveQuery k ∧ b ≤ k ∧ k < b + n := by
  rcases List.mem_map.1 h with ⟨k, hk, rfl⟩
  rcases List.mem_range'_1.1 hk with ⟨h1, h2⟩
  exact ⟨k, rfl, h1, h2⟩

/-! ### Helper lemmas about the RID match loop -/

/-- When no registered module carries the requested RID, the loop finds
nothing. -/
theorem findMatchedRecipe_eq_none (rid : String) (mods : List RecipeModule) (b : Nat)
    (h : ∀ m ∈ mods, m.recipeID ≠ rid) :
    findMatchedRecipe rid b mods = none := by
  induction mods generalizing b with
  | nil => rfl
  | cons m rest ih =>
    have hm : m.recipeID ≠ rid := h m (by simp)
    simp only [findMatchedRecipe, if_neg hm]
    exact ih (b + 1) (fun m' hm' => h m' (List.mem_cons_of_mem m hm'))

/-- The loop returns the FIRST module whose RecipeID matches, paired with
its index. -/
theorem findMatchedRecipe_first (rid : String) (l1 l2 : List RecipeModule)
    (m : RecipeModule) (b : Nat)
    (h1 : ∀ m' ∈ l1, m'.recipeID ≠ rid) (hm : m.recipeID = rid) :
    findMatchedRecipe rid b (l1 ++ m :: l2) = some (b + l1.length, m) := by
  induction l1 generalizing b with
  | nil => simp [findMatchedRecipe, hm]
  | cons m0 l1 ih =>
    have hm0 : m0.recipeID ≠ rid := h1 m0 (by simp)
    simp only [List.cons_append, findMatchedRecipe, if_neg hm0]
    rw [show (l1.append (m :: l2)) = l1 ++ m :: l2 from rfl,
      ih (b + 1) (fun m' hm' => h1 m' (List.mem_cons_of_mem m0 hm'))]
    have : b + 1 + l1.length = b + (l1.length + 1) := by omega
    simp [this]

/-! ### Helper lemmas about the error-handling walk -/

/-- A module lets the error walk continue when it has no `HandleError`
hook, or its hook returns `(handled = false, nil)`. -/
def continuesOn (m : RecipeModule) (e : Err) : Prop :=
  m.handleError = none ∨ ∃ h, m.handleError = some h ∧ h e = (false, none)

/-- The events the walk emits while crossing a block of modules that all
continue: one `handleErrorCall` per module that has a hook. -/
def walkCalls : Nat → List RecipeModule → List EEvent
  | _, [] => []
  | b, m :: rest =>
    match m.handleError with
    | none => walkCalls (b + 1) rest
    | some _ => .handleErrorCall b :: walkCalls (b + 1) rest

/-- Crossing a block of continuing modules only emits their call events
and resumes the walk after the block. -/
theorem handleErrorWalk_append (e : Err) (l1 rest : List RecipeModule) (b : Nat)
    (h : ∀ m ∈ l1, continuesOn m e) :
    handleErrorWalk e b (l1 ++ rest)
      = walkCalls b l1 ++ handleErrorWalk e (b + l1.length) rest := by
  induction l1 generalizing b with
  | nil => simp [walkCalls]
  | cons m l1 ih =>
    have hrest : ∀ m' ∈ l1, continuesOn m' e :=
      fun m' hm' => h m' (List.mem_cons_of_mem m hm')
    have harr : b + (l1.length + 1) = b + 1 + l1.length := by omega
    rcases h m (by simp) with hnone | ⟨hf, hsome, hval⟩
    · simp only [List.cons_append, handleErrorWalk, walkCalls, hnone, List.length_cons, harr]
      rw [show l1.append rest = l1 ++ rest from rfl, ih (b + 1) hrest]
    · simp only [List.cons_append, handleErrorWalk, walkCalls, hsome, hval, List.length_cons,
        harr, List.cons_append]
      rw [show l1.append rest = l1 ++ rest from rfl, ih (b + 1) hrest]

/-- Every event of a continuing block is a `handleErrorCall` with index
below `b + n`; in particular the block never invokes the general error
handler. -/
theorem mem_walkCalls {ev : EEvent} {b : Nat} {l : List RecipeModule}
    (h : ev ∈ walkCalls b l) :
    ∃ k, ev = EEvent.handleErrorCall k ∧ b ≤ k ∧ k < b + l.length := by
  induction l generalizing b with
  | nil => simp [walkCalls] at h
  | cons m rest ih =>
    by_cases hm : m.handleError = none
    · simp only [walkCalls, hm] at h
      rcases ih h with ⟨k, rfl, h1, h2⟩
      exact ⟨k, rfl, by omega, by simp only [List.length_cons]; omega⟩
    · rcases Option.ne_none_iff_exists.1 hm with ⟨f, hf⟩
      simp only [walkCalls, ← hf] at h
      rcases List.mem_cons.1 h with rfl | h
      · exact ⟨b, rfl, le_refl b, by simp only [List.length_cons]; omega⟩
      · rcases ih h with ⟨k, rfl, h1, h2⟩
        exact ⟨k, rfl, by omega, by simp only [List.length_cons]; omega⟩

/-! ### Helper lemmas about CORS aggregation and initialisation -/

/-- Membership in the header-map fold: a header is a key exactly when it
was seeded or declared by some module. -/
theorem mem_corsFold (mods : List RecipeModule) (init : Finset String) (x : String) :
    (x ∈ mods.foldl (fun s m => s ∪ m.getAllCORSHeaders.toFinset) init)
      ↔ (x ∈ init ∨ ∃ m ∈ mods, x ∈ m.getAllCORSHeaders) := by
  induction mods generalizing init with
  | nil => simp
  | cons m rest ih =>
    simp only [List.foldl_cons, ih, Finset.mem_union, List.mem_toFinset, List.mem_cons]
    constructor
    · rintro ((hx | hx) | ⟨m', hm', hx⟩)
      · exact Or.inl hx
      · exact Or.inr ⟨m, Or.inl rfl, hx⟩
      · exact Or.inr ⟨m', Or.inr hm', hx⟩
    · rintro (hx | ⟨m', hm' | hm', hx⟩)
      · exact Or.inl (Or.inl hx)
      · exact Or.inl (Or.inr (hm' ▸ hx))
      · exact Or.inr ⟨m', hm', hx⟩

/-- Starting from an unset singleton, `supertokensInit` either fails and
leaves the singleton unset, or succeeds and sets it. -/
theorem supertokensInit_cases
    (normaliseAppInfoFn : String → Except Err NormalisedAppinfo)
    (newDomainFn : String → Except Err String) (config : TypeInput) :
    (∃ e, supertokensInit normaliseAppInfoFn newDomainFn none config = (.error e, none))
      ∨ ∃ s, supertokensInit normaliseAppInfoFn newDomainFn none config = (.ok (), some s) := by
  unfold supertokensInit
  cases hA : normaliseAppInfoFn config.appInfo with
  | error e => exact Or.inl ⟨e, rfl⟩
  | ok appInfo =>
    simp only
    cases hH : (match config.supertokensURI with
                | some uri => normaliseHosts newDomainFn (uri.splitOn ";")
                | none => .ok ([] : List String)) with
    | error e => exact Or.inl ⟨e, rfl⟩
    | ok hosts =>
      simp only
      cases hR : config.recipeList with
      | none => exact Or.inl ⟨.general emptyRecipeListMsg, rfl⟩
      | some rl =>
        simp only
        by_cases hz : rl.length = 0
        · rw [if_pos hz]
          exact Or.inl ⟨.general emptyRecipeListMsg, rfl⟩
        · rw [if_neg hz]
          cases hI : initRecipes appInfo rl with
          | error e => exact Or.inl ⟨e, rfl⟩
          | ok mods => exact Or.inr ⟨⟨appInfo, mods⟩, rfl⟩

/-! ### Concrete instances used by the witnesses -/

/-- A registered module that never claims a request. -/
def passModule : RecipeModule :=
  ⟨"pass-recipe", fun _ _ => .ok none, fun _ => .ok (), ["x-pass"], none⟩

/-- A registered module that claims every request inside the base path with
API id "refresh". -/
def claimModule : RecipeModule :=
  ⟨"claim-recipe", fun _ _ => .ok (some "refresh"), fun _ => .ok (), [], none⟩

/-- A registered module whose resolution check always errors. -/
def errModule : RecipeModule :=
  ⟨"err-recipe", fun _ _ => .error (.general "resolve failed"), fun _ => .ok (), [], none⟩

/-- A registered module whose `HandleError` hook escalates a fresh error. -/
def escalateModule : RecipeModule :=
  ⟨"escalate-recipe", fun _ _ => .ok none, fun _ => .ok (), [],
    some (fun _ => (false, some (.general "escalated")))⟩

/-! ### Claims -/

/-- C6: a request whose gateway-prefixed normalised path does not start
with the API base path makes the middleware invoke the fallback handler
and stop; no recipe module method (resolution query or API dispatch) is
ever called for it. -/
theorem C6_outside_basePath_only_fallback (s : SuperTokensInst)
    (normalisePath : String → Except Err String) (appendPath : String → String → String)
    (reqPath method rid reqURL : String)
    (hnorm : normalisePath reqPath = .ok reqURL)
    (hout : strHasPrefix (appendPath s.apiGatewayPath reqURL) s.apiBasePath = false) :
    middleware s normalisePath appendPath reqPath method rid = [MEvent.fallback]
      ∧ (∀ k, MEvent.resolveQuery k ∉ middleware s normalisePath appendPath reqPath method rid)
      ∧ (∀ k id, MEvent.handleAPI k id ∉ middleware s normalisePath appendPath reqPath method rid) := by
  have hmid : middleware s normalisePath appendPath reqPath method rid = [MEvent.fallback] := by
    unfold middleware
    rw [hnorm]
    simp [hout]
  refine ⟨hmid, ?_, ?_⟩ <;> simp [hmid]

/-- Witness for C6: a `GET /profile` request against base path `/auth`
goes to the fallback. -/
theorem C6_witness :
    middleware ⟨"", "/auth", [passModule, claimModule]⟩ (fun p => .ok p)
      (fun a b => a ++ b) "/profile" "GET" "" = [MEvent.fallback] :=
  (C6_outside_basePath_only_fallback ⟨"", "/auth", [passModule, claimModule]⟩
    (fun p => .ok p) (fun a b => a ++ b) "/profile" "GET" "" "/profile" rfl (by decide)).1

/-- C9: when path normalisation fails, the middleware invokes the error
chain but CONTINUES (the code has no return on that branch), so its very
next step dereferences the nil normalised-path pointer; the whole trace is
the error-chain invocation followed by the nil dereference, and nothing
after it is safely defined. -/
theorem C9_normalisation_failure_nil_deref (s : SuperTokensInst)
    (normalisePath : String → Except Err String) (appendPath : String → String → String)
    (reqPath method rid : String) (e : Err)
    (hnorm : normalisePath reqPath = .error e) :
    middleware s normalisePath appendPath reqPath method rid
      = [MEvent.errorChain e, MEvent.nilDeref] := by
  unfold middleware
  rw [hnorm]

/-- Witness for C9: a concrete failing normalisation reaches the nil
dereference right after the error chain. -/
theorem C9_witness :
    middleware ⟨"", "/auth", [passModule]⟩ (fun _ => .error (.badInput "unparsable path"))
      (fun a b => a ++ b) "::bad::" "GET" "" =
      [MEvent.errorChain (.badInput "unparsable path"), MEvent.nilDeref] :=
  C9_normalisation_failure_nil_deref ⟨"", "/auth", [passModule]⟩
    (fun _ => .error (.badInput "unparsable path")) (fun a b => a ++ b)
    "::bad::" "GET" "" (.badInput "unparsable path") rfl

/-- C3 (code bug): at a request whose path fails normalisation the code
does route the error to the error chain and never reaches the fallback,
but routing does NOT stop there: the middleware continues into the
gateway-prefix step and dereferences the nil normalised path (the
`nilDeref` event after the `errorChain` event), instead of returning. -/
theorem C3_normalisation_failure_does_not_stop :
    middleware ⟨"", "/auth", [passModule, claimModule]⟩
        (fun _ => .error (.badInput "unparsable path"))
        (fun a b => a ++ b) "::bad::" "GET" ""
      = [MEvent.errorChain (.badInput "unparsable path"), MEvent.nilDeref] := rfl

/-- C5: a `BadInputError` entering the error chain first triggers the
attempt to write a 400 response carrying the error's message, never
consults any module's `HandleError`, and when that write itself fails the
general handler receives the ORIGINAL `BadInputError`. -/
theorem C5_badInput_always_400 (mods : List RecipeModule) (writeFails : Bool) (msg : String) :
    (errorHandler mods writeFails (.badInput msg)).head?
        = some (EEvent.attemptWrite400 msg)
      ∧ (∀ i, EEvent.handleErrorCall i ∉ errorHandler mods writeFails (.badInput msg))
      ∧ (writeFails = true →
          errorHandler mods writeFails (.badInput msg)
            = [EEvent.attemptWrite400 msg, EEvent.onGeneralError (.badInput msg)])
      ∧ (writeFails = false →
          errorHandler mods writeFails (.badInput msg) = [EEvent.attemptWrite400 msg]) := by
  cases writeFails <;> simp [errorHandler, Err.isBadInput, Err.message]

/-- Witness for C5: with a failing response writer the general handler
gets the original bad-input error, and no recipe hook was consulted. -/
theorem C5_witness :
    errorHandler [escalateModule] true (.badInput "bad query")
        = [EEvent.attemptWrite400 "bad query", EEvent.onGeneralError (.badInput "bad query")]
      ∧ EEvent.handleErrorCall 0 ∉ errorHandler [escalateModule] true (.badInput "bad query") :=
  ⟨(C5_badInput_always_400 [escalateModule] true "bad query").2.2.1 rfl,
   (C5_badInput_always_400 [escalateModule] true "bad query").2.1 0⟩

/-- C8: `getAllCORSHeaders` always contains the RID header and the
frontend-driver-interface version header, and its elements are exactly the
deduplicated union of those two with every registered module's declared
CORS headers. -/
theorem C8_cors_union (mods : List RecipeModule) :
    HeaderRID ∈ getAllCORSHeaders mods
      ∧ HeaderFDI ∈ getAllCORSHeaders mods
      ∧ ∀ hd, hd ∈ getAllCORSHeaders mods
          ↔ (hd = HeaderRID ∨ hd = HeaderFDI ∨ ∃ m ∈ mods, hd ∈ m.getAllCORSHeaders) := by
  have hmem : ∀ hd, hd ∈ getAllCORSHeaders mods
      ↔ (hd = HeaderRID ∨ hd = HeaderFDI ∨ ∃ m ∈ mods, hd ∈ m.getAllCORSHeaders) := by
    intro hd
    unfold getAllCORSHeaders
    rw [mem_corsFold]
    simp [or_assoc]
  exact ⟨(hmem _).2 (Or.inl rfl), (hmem _).2 (Or.inr (Or.inl rfl)), hmem⟩

/-- Witness for C8: with no module declaring headers, both fixed headers
are present and a foreign header is absent. -/
theorem C8_witness :
    HeaderRID ∈ getAllCORSHeaders [claimModule]
      ∧ HeaderFDI ∈ getAllCORSHeaders [claimModule]
      ∧ ("x-alien" ∈ getAllCORSHeaders [claimModule]
          ↔ ("x-alien" = HeaderRID ∨ "x-alien" = HeaderFDI
              ∨ ∃ m ∈ [claimModule], "x-alien" ∈ m.getAllCORSHeaders)) :=
  ⟨(C8_cors_union [claimModule]).1, (C8_cors_union [claimModule]).2.1,
    (C8_cors_union [claimModule]).2.2 "x-alien"⟩

/-- C7: the session-refresh API handler delegates entirely to the fallback
handler and returns nil when no `RefreshPOST` override is supplied (nil
pointer or pointer to nil); an existing override is invoked with the
per-request context, its error is propagated unchanged, and on success a
200 response with an empty JSON body is written. -/
theorem C7_refresh_api_contract {Ctx : Type}
    (refreshPOST : Option (Option (Ctx → Except Err Unit)))
    (ctx : Ctx) (send200Result : Option Err) :
    (refreshPOST = none →
        HandleRefreshAPI refreshPOST ctx send200Result
          = ([RefreshEvent.otherHandlerServed], none))
      ∧ (refreshPOST = some none →
          HandleRefreshAPI refreshPOST ctx send200Result
            = ([RefreshEvent.otherHandlerServed], none))
      ∧ (∀ f e, refreshPOST = some (some f) → f ctx = .error e →
          HandleRefreshAPI refreshPOST ctx send200Result
            = ([RefreshEvent.refreshPOSTInvoked], some e))
      ∧ (∀ f, refreshPOST = some (some f) → f ctx = .ok () →
          HandleRefreshAPI refreshPOST ctx send200Result
            = ([RefreshEvent.refreshPOSTInvoked, RefreshEvent.send200EmptyJSON],
                send200Result)) := by
  refine ⟨?_, ?_, ?_, ?_⟩
  · rintro rfl; rfl
  · rintro rfl; rfl
  · rintro f e rfl hf; simp [HandleRefreshAPI, hf]
  · rintro f rfl hf; simp [HandleRefreshAPI, hf]

/-- Witness for C7: with no override the handler passes through, and with
an erroring override the error is propagated unchanged. -/
theorem C7_witness :
    @HandleRefreshAPI Unit none () none = ([RefreshEvent.otherHandlerServed], none)
      ∧ @HandleRefreshAPI Unit
          (some (some (fun _ => .error (.general "refresh failed")))) () none
          = ([RefreshEvent.refreshPOSTInvoked], some (.general "refresh failed")) :=
  ⟨(@C7_refresh_api_contract Unit none () none).1 rfl,
   (@C7_refresh_api_contract Unit
      (some (some (fun _ => .error (.general "refresh failed")))) () none).2.2.1
      (fun _ => .error (.general "refresh failed")) (.general "refresh failed") rfl rfl⟩

/-- C1: for a request inside the API base path with no RID header the
middleware runs the registration-order scan; when the modules before
position `l1.length` all decline (resolve to none), a module resolving to
an API id is dispatched via `HandleAPIRequest` and no later module is ever
queried; a module erroring sends that error to the error chain, consults
no later module and never reaches the fallback; and when every module
declines, the fallback handler is invoked. -/
theorem C1_no_rid_first_match_scan (s : SuperTokensInst)
    (normalisePath : String → Except Err String) (appendPath : String → String → String)
    (reqPath method reqURL path : String)
    (hnorm : normalisePath reqPath = .ok reqURL)
    (hpath : appendPath s.apiGatewayPath reqURL = path)
    (hin : strHasPrefix path s.apiBasePath = true) :
    middleware s normalisePath appendPath reqPath method ""
        = scanRecipes path method 0 s.recipeModules
      ∧ (∀ l1 m l2, s.recipeModules = l1 ++ m :: l2 →
          (∀ m' ∈ l1, m'.returnAPIIdIfCanHandleRequest path method = .ok none) →
          ((∀ id, m.returnAPIIdIfCanHandleRequest path method = .ok (some id) →
              MEvent.handleAPI l1.length id ∈ scanRecipes path method 0 s.recipeModules
                ∧ ∀ k, l1.length < k →
                    MEvent.resolveQuery k ∉ scanRecipes path method 0 s.recipeModules)
            ∧ (∀ e, m.returnAPIIdIfCanHandleRequest path method = .error e →
                MEvent.errorChain e ∈ scanRecipes path method 0 s.recipeModules
                  ∧ MEvent.fallback ∉ scanRecipes path method 0 s.recipeModules
                  ∧ ∀ k, l1.length < k →
                      MEvent.resolveQuery k ∉ scanRecipes path method 0 s.recipeModules)))
      ∧ ((∀ m' ∈ s.recipeModules, m'.returnAPIIdIfCanHandleRequest path method = .ok none) →
          MEvent.fallback ∈ scanRecipes path method 0 s.recipeModules) := by
  subst hpath
  refine ⟨?_, ?_, ?_⟩
  · unfold middleware
    rw [hnorm]
    simp [hin]
  · intro l1 m l2 hdec hnone
    have hscan : scanRecipes (appendPath s.apiGatewayPath reqURL) method 0 s.recipeModules
        = ((List.range' 0 l1.length).map MEvent.resolveQuery)
            ++ scanRecipes (appendPath s.apiGatewayPath reqURL) method l1.length (m :: l2) := by
      rw [hdec, scanRecipes_append _ _ _ _ _ hnone]
      simp
    constructor
    · intro id hid
      constructor
      · rw [hscan]
        cases hh : m.handleAPIRequest id <;> simp [scanRecipes, hid, hh]
      · intro k hk hmem
        rw [hscan] at hmem
        rcases List.mem_append.1 hmem with hmem | hmem
        · rcases mem_resolveQuery_block hmem with ⟨k2, heq, _, hlt⟩
          injection heq with heq2
          omega
        · revert hmem
          cases hh : m.handleAPIRequest id <;> simp [scanRecipes, hid, hh] <;> omega
    · intro e he
      refine ⟨?_, ?_, ?_⟩
      · rw [hscan]
        simp [scanRecipes, he]
      · intro hmem
        rw [hscan] at hmem
        rcases List.mem_append.1 hmem with hmem | hmem
        · rcases mem_resolveQuery_block hmem with ⟨k2, heq, _, _⟩
          simp at heq
        · revert hmem
          simp [scanRecipes, he]
      · intro k hk hmem
        rw [hscan] at hmem
        rcases List.mem_append.1 hmem with hmem | hmem
        · rcases mem_resolveQuery_block hmem with ⟨k2, heq, _, hlt⟩
          injection heq with heq2
          omega
        · revert hmem
          simp [scanRecipes, he]
          omega
  · intro hall
    have hscan : scanRecipes (appendPath s.apiGatewayPath reqURL) method 0 s.recipeModules
        = ((List.range' 0 s.recipeModules.length).map MEvent.resolveQuery)
            ++ scanRecipes (appendPath s.apiGatewayPath reqURL) method s.recipeModules.length [] := by
      conv_lhs => rw [show s.recipeModules = s.recipeModules ++ [] by simp]
      rw [scanRecipes_append _ _ _ _ _ hall]
      simp
    rw [hscan]
    simp [scanRecipes]

/-- Witness for C1: with a declining module registered before a claiming
one, the claiming module at index 1 dispatches API id "refresh" and the
module slot after it is never queried. -/
theorem C1_witness :
    MEvent.handleAPI 1 "refresh" ∈ scanRecipes "/auth/x" "GET" 0 [passModule, claimModule]
      ∧ MEvent.resolveQuery 2 ∉ scanRecipes "/auth/x" "GET" 0 [passModule, claimModule] := by
  have h := C1_no_rid_first_match_scan ⟨"", "/auth", [passModule, claimModule]⟩
      (fun p => .ok p) (fun a b => a ++ b) "/auth/x" "GET" "/auth/x" "/auth/x"
      rfl rfl (by decide)
  have h2 := (h.2.1 [passModule] claimModule [] rfl
      (by intro m' hm'; rw [List.mem_singleton] at hm'; subst hm'; rfl)).1 "refresh" rfl
  exact ⟨h2.1, h2.2 2 (by simp)⟩

/-- C2: for a request inside the API base path carrying a RID header the
middleware runs the RID branch; when no registered module's RecipeID
equals the RID, the fallback runs and no module is queried; when the first
match sits at position `l1.length`, only that module's resolution check is
ever called, its error goes to the error chain, a none API id invokes the
fallback, and otherwise that same module's `HandleAPIRequest` runs with
the resolved id, its error flowing to the error chain. -/
theorem C2_rid_pins_module (s : SuperTokensInst)
    (normalisePath : String → Except Err String) (appendPath : String → String → String)
    (reqPath method rid reqURL path : String)
    (hnorm : normalisePath reqPath = .ok reqURL)
    (hpath : appendPath s.apiGatewayPath reqURL = path)
    (hin : strHasPrefix path s.apiBasePath = true)
    (hrid : rid ≠ "") :
    middleware s normalisePath appendPath reqPath method rid
        = ridBranch path method s.recipeModules rid
      ∧ ((∀ m ∈ s.recipeModules, m.recipeID ≠ rid) →
          ridBranch path method s.recipeModules rid = [MEvent.fallback])
      ∧ (∀ l1 m l2, s.recipeModules = l1 ++ m :: l2 →
          (∀ m' ∈ l1, m'.recipeID ≠ rid) → m.recipeID = rid →
          ((∀ k, MEvent.resolveQuery k ∈ ridBranch path method s.recipeModules rid →
              k = l1.length)
            ∧ (∀ e, m.returnAPIIdIfCanHandleRequest path method = .error e →
                ridBranch path method s.recipeModules rid
                  = [MEvent.resolveQuery l1.length, MEvent.errorChain e])
            ∧ (m.returnAPIIdIfCanHandleRequest path method = .ok none →
                ridBranch path method s.recipeModules rid
                  = [MEvent.resolveQuery l1.length, MEvent.fallback])
            ∧ (∀ id, m.returnAPIIdIfCanHandleRequest path method = .ok (some id) →
                MEvent.handleAPI l1.length id ∈ ridBranch path method s.recipeModules rid
                  ∧ (∀ j id2, MEvent.handleAPI j id2 ∈ ridBranch path method s.recipeModules rid →
                      j = l1.length ∧ id2 = id)
                  ∧ (∀ e, m.handleAPIRequest id = .error e →
                      MEvent.errorChain e ∈ ridBranch path method s.recipeModules rid)))) := by
  subst hpath
  refine ⟨?_, ?_, ?_⟩
  · unfold middleware
    rw [hnorm]
    simp [hin, hrid]
  · intro hnomatch
    unfold ridBranch
    rw [findMatchedRecipe_eq_none rid s.recipeModules 0 hnomatch]
  · intro l1 m l2 hdec h1 hm
    have hfind : findMatchedRecipe rid 0 s.recipeModules = some (l1.length, m) := by
      rw [hdec, findMatchedRecipe_first rid l1 l2 m 0 h1 hm]
      simp
    refine ⟨?_, ?_, ?_, ?_⟩
    · intro k hk
      simp only [ridBranch, hfind] at hk
      revert hk
      cases hres : m.returnAPIIdIfCanHandleRequest
          (appendPath s.apiGatewayPath reqURL) method with
      | error e => simp
      | ok o =>
        cases o with
        | none => simp
        | some id =>
          cases hh : m.handleAPIRequest id <;> simp [hh]
    · intro e he
      simp [ridBranch, hfind, he]
    · intro he
      simp [ridBranch, hfind, he]
    · intro id hid
      refine ⟨?_, ?_, ?_⟩
      · simp only [ridBranch, hfind, hid]
        cases hh : m.handleAPIRequest id <;> simp [hh]
      · intro j id2 hj
        simp only [ridBranch, hfind, hid] at hj
        revert hj
        cases hh : m.handleAPIRequest id <;> simp [hh]
      · intro e he
        simp [ridBranch, hfind, hid, he]

/-- Witness for C2: with RID "claim-recipe" the matched module at index 1
dispatches API id "refresh"; with an unregistered RID the fallback runs
untouched. -/
theorem C2_witness :
    MEvent.handleAPI 1 "refresh" ∈ ridBranch "/auth/x" "GET" [passModule, claimModule] "claim-recipe"
      ∧ ridBranch "/auth/x" "GET" [passModule, claimModule] "ghost" = [MEvent.fallback] := by
  have h := C2_rid_pins_module ⟨"", "/auth", [passModule, claimModule]⟩
      (fun p => .ok p) (fun a b => a ++ b) "/auth/x" "GET" "claim-recipe" "/auth/x" "/auth/x"
      rfl rfl (by decide) (by decide)
  have hmatched := ((h.2.2 [passModule] claimModule [] rfl
      (by intro m' hm'; rw [List.mem_singleton] at hm'; subst hm'; decide)
      rfl).2.2.2 "refresh" rfl).1
  have hg := C2_rid_pins_module ⟨"", "/auth", [passModule, claimModule]⟩
      (fun p => .ok p) (fun a b => a ++ b) "/auth/x" "GET" "ghost" "/auth/x" "/auth/x"
      rfl rfl (by decide) (by decide)
  exact ⟨hmatched, hg.2.1 (by decide)⟩

/-- C4: for a non-BadInputError the chain walks the modules that expose a
`HandleError` hook in registration order; when every module before
position `l1.length` continues (no hook, or `(handled = false, nil)`), a
module whose hook returns a non-nil `err2` is called, the general handler
receives `err2` (and nothing but `err2`), and no later module's hook runs;
a module answering `(handled = true, nil)` is called, the chain stops with
no general-handler invocation and no later hook call; and when every
module continues, the general handler receives the original error. -/
theorem C4_error_chain_walk (mods : List RecipeModule) (writeFails : Bool) (e : Err)
    (hnb : e.isBadInput = false) :
    ((∀ m' ∈ mods, continuesOn m' e) →
        (EEvent.onGeneralError e ∈ errorHandler mods writeFails e
          ∧ ∀ e2, EEvent.onGeneralError e2 ∈ errorHandler mods writeFails e → e2 = e))
      ∧ (∀ l1 m l2, mods = l1 ++ m :: l2 → (∀ m' ∈ l1, continuesOn m' e) →
          ((∀ h hb err2, m.handleError = some h → h e = (hb, some err2) →
              EEvent.handleErrorCall l1.length ∈ errorHandler mods writeFails e
                ∧ EEvent.onGeneralError err2 ∈ errorHandler mods writeFails e
                ∧ (∀ e2, EEvent.onGeneralError e2 ∈ errorHandler mods writeFails e → e2 = err2)
                ∧ (∀ k, EEvent.handleErrorCall k ∈ errorHandler mods writeFails e →
                    k ≤ l1.length))
            ∧ (∀ h, m.handleError = some h → h e = (true, none) →
                EEvent.handleErrorCall l1.length ∈ errorHandler mods writeFails e
                  ∧ (∀ e2, EEvent.onGeneralError e2 ∉ errorHandler mods writeFails e)
                  ∧ (∀ k, EEvent.handleErrorCall k ∈ errorHandler mods writeFails e →
                      k ≤ l1.length)))) := by
  have hEH : errorHandler mods writeFails e = handleErrorWalk e 0 mods := by
    unfold errorHandler
    rw [hnb]
    simp
  constructor
  · intro hall
    have hwalk : handleErrorWalk e 0 mods
        = walkCalls 0 mods ++ handleErrorWalk e mods.length [] := by
      conv_lhs => rw [show mods = mods ++ [] by simp]
      rw [handleErrorWalk_append e mods [] 0 hall]
      simp
    rw [hEH, hwalk]
    constructor
    · simp [handleErrorWalk]
    · intro e2 hmem
      rcases List.mem_append.1 hmem with hmem | hmem
      · rcases mem_walkCalls hmem with ⟨k2, heq, _, _⟩
        simp at heq
      · revert hmem
        simp [handleErrorWalk]
  · intro l1 m l2 hdec hcont
    have hwalk : handleErrorWalk e 0 mods
        = walkCalls 0 l1 ++ handleErrorWalk e l1.length (m :: l2) := by
      rw [hdec, handleErrorWalk_append e l1 (m :: l2) 0 hcont]
      simp
    constructor
    · intro h hb err2 hsome hval
      have htail : handleErrorWalk e l1.length (m :: l2)
          = [EEvent.handleErrorCall l1.length, EEvent.onGeneralError err2] := by
        cases hb <;> simp [handleErrorWalk, hsome, hval]
      rw [hEH, hwalk, htail]
      refine ⟨by simp, by simp, ?_, ?_⟩
      · intro e2 hmem
        rcases List.mem_append.1 hmem with hmem | hmem
        · rcases mem_walkCalls hmem with ⟨k2, heq, _, _⟩
          simp at heq
        · revert hmem
          simp
      · intro k hmem
        rcases List.mem_append.1 hmem with hmem | hmem
        · rcases mem_walkCalls hmem with ⟨k2, heq, _, hlt⟩
          injection heq with heq2
          omega
        · revert hmem
          simp
          omega
    · intro h hsome hval
      have htail : handleErrorWalk e l1.length (m :: l2)
          = [EEvent.handleErrorCall l1.length] := by
        simp [handleErrorWalk, hsome, hval]
      rw [hEH, hwalk, htail]
      refine ⟨by simp, ?_, ?_⟩
      · intro e2 hmem
        rcases List.mem_append.1 hmem with hmem | hmem
        · rcases mem_walkCalls hmem with ⟨k2, heq, _, _⟩
          simp at heq
        · revert hmem
          simp
      · intro k hmem
        rcases List.mem_append.1 hmem with hmem | hmem
        · rcases mem_walkCalls hmem with ⟨k2, heq, _, hlt⟩
          injection heq with heq2
          omega
        · revert hmem
          simp
          omega

/-- Witness for C4: after a hook-less module, the escalating module's hook
at index 1 runs and the general handler receives the escalated error, not
the original one. -/
theorem C4_witness :
    EEvent.handleErrorCall 1 ∈ errorHandler [passModule, escalateModule] false (.general "boom")
      ∧ EEvent.onGeneralError (.general "escalated")
          ∈ errorHandler [passModule, escalateModule] false (.general "boom")
      ∧ EEvent.onGeneralError (.general "boom")
          ∉ errorHandler [passModule, escalateModule] false (.general "boom") := by
  have h := ((C4_error_chain_walk [passModule, escalateModule] false (.general "boom") rfl).2
      [passModule] escalateModule [] rfl
      (by intro m' hm'; rw [List.mem_singleton] at hm'; subst hm'; exact Or.inl rfl)).1
      (fun _ => (false, some (.general "escalated"))) false (.general "escalated") rfl rfl
  refine ⟨h.1, h.2.1, fun hmem => ?_⟩
  have := h.2.2.1 (.general "boom") hmem
  simp at this

/-- C10: starting from an unset singleton, a failing `supertokensInit`
(malformed app info, malformed connection-URI host, missing or empty
recipe list, failing recipe factory) leaves the singleton unset, so
`getInstanceOrThrowError` still fails with the not-initialised error; the
singleton is set only when the call returns without error. -/
theorem C10_failed_init_leaves_singleton_unset
    (normaliseAppInfoFn : String → Except Err NormalisedAppinfo)
    (newDomainFn : String → Except Err String) (config : TypeInput) :
    (∀ e, (supertokensInit normaliseAppInfoFn newDomainFn none config).1 = .error e →
        (supertokensInit normaliseAppInfoFn newDomainFn none config).2 = none
          ∧ getInstanceOrThrowError
              (supertokensInit normaliseAppInfoFn newDomainFn none config).2
              = .error (.general notInitialisedMsg))
      ∧ (∀ s, (supertokensInit normaliseAppInfoFn newDomainFn none config).2 = some s →
          (supertokensInit normaliseAppInfoFn newDomainFn none config).1 = .ok ()) := by
  rcases supertokensInit_cases normaliseAppInfoFn newDomainFn config with ⟨e, he⟩ | ⟨s, hs⟩
  · constructor
    · intro e2 _
      rw [he]
      exact ⟨rfl, rfl⟩
    · intro s hs2
      rw [he] at hs2
      simp at hs2
  · constructor
    · intro e2 he2
      rw [hs] at he2
      simp at he2
    · intro s2 _
      rw [hs]

/-- Witness for C10: a configuration with no recipe list fails, and the
singleton afterwards is still unset with `getInstanceOrThrowError`
reporting the not-initialised error. -/
theorem C10_witness :
    (supertokensInit (fun a => .ok ⟨a⟩) (fun d => .ok d) none ⟨"app", none, none, none⟩).2 = none
      ∧ getInstanceOrThrowError
          (supertokensInit (fun a => .ok ⟨a⟩) (fun d => .ok d) none
            ⟨"app", none, none, none⟩).2
          = .error (.general notInitialisedMsg) :=
  (C10_failed_init_leaves_singleton_unset (fun a => .ok ⟨a⟩) (fun d => .ok d)
    ⟨"app", none, none, none⟩).1 (.general emptyRecipeListMsg) rfl

end SuperTokensGo
